import Mathlib

/-!
Shallow embedding of the chakancha conversational-agent core
(src/agents/state.py, src/agents/nodes.py, src/agents/chatbot_agent.py,
src/rag/retriever.py, src/services/dhl_api.py) and proofs about it.

Modelling conventions:
  * Python dicts with a fixed key set become structures; a key that can be
    absent becomes an `Option` field.
  * Python floats carry no arithmetic here beyond comparison and literal
    assignment, so they are embedded as `Rat` (exact).
  * External network calls (the Anthropic completions, the OpenAI embedding,
    the Pinecone query, the live DHL fetch) are oracles: function-typed
    parameters whose value stands for the call's outcome this turn, with
    `Except.error` standing for a raised exception.  A result that does not
    depend on the oracle's value models "no call observable".
  * Python truthiness on `Optional[str]` (`if state['error']:`) is
    `pyTruthyStr`; on `Optional[list]` it is handled at each use site.
-/

set_option maxRecDepth 8192

namespace Chakancha

/-- Message record from src/agents/state.py (`class Message(TypedDict)`). -/
structure Message where
  role : String
  content : String
  timestamp : String
deriving Repr, DecidableEq

/-- One formatted FAQ hit as built by `FAQRetriever.retrieve`
(src/rag/retriever.py lines 68-81). -/
structure KnowledgeHit where
  id : String
  question : String
  answer : String
  category : String
  score : Rat
  keywords : List String
  related_faqs : Option (List String) := none
deriving Repr, DecidableEq

/-- Metadata of one Pinecone match as read by `FAQRetriever.retrieve`:
`category`, `keywords` and `related_faqs` may be absent from the stored
metadata (the code uses `metadata.get`/`in`). -/
structure MatchMeta where
  id : String
  question : String
  answer : String
  category : Option String := none
  keywords : Option String := none
  related_faqs : Option String := none
deriving Repr, DecidableEq

/-- One Pinecone match: a similarity score and the stored metadata
(the shape `query_vectors` returns, src/rag/pinecone_client.py line 158). -/
structure MatchRec where
  score : Rat
  metadata : MatchMeta
deriving Repr, DecidableEq

/-- City/country pair used in tracking results (src/services/dhl_api.py). -/
structure Address where
  city : String := ""
  country : String := ""
deriving Repr, DecidableEq

/-- One tracking event (src/services/dhl_api.py, `events` entries). -/
structure TrackingEvent where
  timestamp : String := ""
  description : String := ""
  location : String := ""
deriving Repr, DecidableEq

/-- The dict `DHLTrackingClient.track_shipment` and its helpers return.
Only `success` is always present; every other key varies by code path,
so each is an `Option` (or a list defaulting to empty). -/
structure TrackingInfo where
  success : Bool
  error : Option String := none
  tracking_number : Option String := none
  status : Option String := none
  status_description : Option String := none
  current_location : Option String := none
  estimated_delivery : Option String := none
  origin : Option Address := none
  destination : Option Address := none
  events : List TrackingEvent := []
  last_updated : Option String := none
deriving Repr, DecidableEq

/-- Python truthiness of an `Optional[str]`: `None` and the empty string are
falsy. -/
def pyTruthyStr : Option String → Bool
  | none => false
  | some s => !s.isEmpty

/-- Helper for `strContains`: does `needle` occur contiguously in `hay`? -/
def containsSub : List Char → List Char → Bool
  | [], needle => needle.isEmpty
  | h :: t, needle => needle.isPrefixOf (h :: t) || containsSub t needle

/-- Python `needle in hay` on strings. -/
def strContains (hay needle : String) : Bool :=
  containsSub hay.toList needle.toList

/-- Python `a or b` for an optional string `a` with a string fallback `b`
(used as `state['faq_query'] or state['user_message']`). -/
def pyOrStr : Option String → String → String
  | none, b => b
  | some a, b => if a.isEmpty then b else a

/-- Python `str.strip()`: surrounding whitespace removed (ASCII whitespace;
the identifiers handled here are ASCII). -/
def pyStrip (s : String) : String :=
  String.mk (((s.toList.dropWhile Char.isWhitespace).reverse.dropWhile
    Char.isWhitespace).reverse)

/-- Python `str.lower()` (ASCII; the error texts matched on are ASCII). -/
def pyLower (s : String) : String :=
  String.mk (s.toList.map Char.toLower)

/-- Python `str.upper()` (ASCII; the mock-scenario keys are ASCII). -/
def pyUpper (s : String) : String :=
  String.mk (s.toList.map Char.toUpper)

/-- Python `str.capitalize()`: first character upper-cased, the rest
lower-cased. -/
def pyCapitalize (s : String) : String :=
  match s.toList with
  | [] => ""
  | c :: t => String.mk (c.toUpper :: t.map Char.toLower)

/-! ## src/services/dhl_api.py — DHLTrackingClient -/

namespace DHLTrackingClient

/-- `_validate_tracking_number` (src/services/dhl_api.py lines 317-342):
falsy (empty) input is rejected, then the stripped length must lie in
8..39. -/
def validate_tracking_number (tracking_number : String) : Bool :=
  if tracking_number.isEmpty then false
  else
    let t := pyStrip tracking_number
    if t.length < 8 || t.length > 39 then false else true

/-- The `TEST123` mock scenario (src/services/dhl_api.py lines 222-255);
`now` stands for `datetime.now().isoformat()`. -/
def mockScenarioTest123 (now tn : String) : TrackingInfo :=
  { success := true
    tracking_number := some tn
    status := some "transit"
    status_description := some "Shipment in transit"
    current_location := some "Nairobi Sorting Facility"
    estimated_delivery := some "2026-03-05"
    origin := some { city := "Nandi Hills", country := "KE" }
    destination := some { city := "New York", country := "US" }
    events := [
      { timestamp := "2026-02-28T14:30:00Z", description := "Shipment picked up", location := "Nandi Hills" },
      { timestamp := "2026-02-28T18:45:00Z", description := "Arrived at sorting facility", location := "Nairobi" },
      { timestamp := "2026-02-28T20:15:00Z", description := "Departed sorting facility", location := "Nairobi" }]
    last_updated := some now }

/-- The `DELIVERED456` mock scenario (src/services/dhl_api.py lines 256-284). -/
def mockScenarioDelivered456 (now tn : String) : TrackingInfo :=
  { success := true
    tracking_number := some tn
    status := some "delivered"
    status_description := some "Shipment delivered"
    current_location := some "New York, NY"
    estimated_delivery := some "2026-02-25"
    origin := some { city := "Nandi Hills", country := "KE" }
    destination := some { city := "New York", country := "US" }
    events := [
      { timestamp := "2026-02-25T10:30:00Z", description := "Delivered", location := "New York, NY" },
      { timestamp := "2026-02-25T08:15:00Z", description := "Out for delivery", location := "New York, NY" }]
    last_updated := some now }

/-- The generic "in transit" mock response (src/services/dhl_api.py
lines 291-315). -/
def mockGeneric (now tn : String) : TrackingInfo :=
  { success := true
    tracking_number := some tn
    status := some "transit"
    status_description := some "Shipment in transit to destination"
    current_location := some "Frankfurt Sorting Facility"
    estimated_delivery := some "2026-03-10"
    origin := some { city := "Nairobi", country := "KE" }
    destination := some { city := "London", country := "GB" }
    events := [
      { timestamp := now, description := "Package in transit", location := "Frankfurt" }]
    last_updated := some now }

/-- `_get_mock_tracking_data` (src/services/dhl_api.py lines 210-315):
named scenarios keyed on the upper-cased tracking number, generic
fallback otherwise. -/
def get_mock_tracking_data (now tn : String) : TrackingInfo :=
  if pyUpper tn = "TEST123" then mockScenarioTest123 now tn
  else if pyUpper tn = "DELIVERED456" then mockScenarioDelivered456 now tn
  else mockGeneric now tn

/-- `track_shipment` (src/services/dhl_api.py lines 34-68).
`mock_mode` is `not bool(settings.DHL_API_KEY)`; `realOutcome` is the
oracle for `_fetch_real_tracking_data` (which returns a dict on every
path, mapping timeout / 404 / HTTP errors to failure records). -/
def track_shipment (mock_mode : Bool) (realOutcome : String → TrackingInfo)
    (now : String) (tracking_number : String) : TrackingInfo :=
  if !validate_tracking_number tracking_number then
    { success := false
      error := some "Invalid tracking number format"
      tracking_number := some tracking_number }
  else if mock_mode then get_mock_tracking_data now tracking_number
  else realOutcome tracking_number

end DHLTrackingClient

/-! ## src/rag/retriever.py — FAQRetriever -/

namespace FAQRetriever

/-- Oracle bundle behind `FAQRetriever.retrieve`: the embedding call
(`EmbeddingsGenerator.generate_embedding`, returning `None` on empty text
and raising on API failure) and the index query
(`PineconeClient.query_vectors`, raising on failure).  `Except.error`
stands for a raised exception, caught by `retrieve`'s outer `except`. -/
structure RetrieveEnv where
  embedOutcome : String → Except String (Option (List Rat))
  queryFn : List Rat → Nat → String → Option String → Except String (List MatchRec)

/-- The filter retriever.py builds at lines 47-49: `{'category': category}`
when `category` is truthy, else `None`; modelled by the category value
itself. -/
def category_filter : Option String → Option String
  | none => none
  | some c => if c.isEmpty then none else some c

/-- Metadata-to-FAQ mapping of src/rag/retriever.py lines 68-79:
`category` defaults to "general"; `keywords` splits on ", " when truthy,
else `[]`; `related_faqs` splits whenever the key is present. -/
def metadataToFaq (score : Rat) (m : MatchMeta) : KnowledgeHit :=
  { id := m.id
    question := m.question
    answer := m.answer
    category := m.category.getD "general"
    score := score
    keywords :=
      match m.keywords with
      | some k => if k.isEmpty then [] else k.splitOn ", "
      | none => []
    related_faqs := m.related_faqs.map (fun r => r.splitOn ", ") }

/-- `FAQRetriever.retrieve` (src/rag/retriever.py lines 24-92).
Embedding `None` gives `[]`; any raised exception is caught and gives `[]`;
otherwise the index is queried for `top_k * 2` matches under the category
filter, matches with `score >= min_score` are kept in the index's order and
truncated to `top_k`.  `ns` is the Pinecone namespace argument. -/
def retrieve (env : RetrieveEnv) (query : String) (top_k : Nat)
    (min_score : Rat) (ns : String) (category : Option String) :
    List KnowledgeHit :=
  match env.embedOutcome query with
  | .error _ => []
  | .ok none => []
  | .ok (some vec) =>
    match env.queryFn vec (top_k * 2) ns (category_filter category) with
    | .error _ => []
    | .ok found =>
      (((found.filter (fun m => min_score ≤ m.score)).map
        (fun m => metadataToFaq m.score m.metadata)).take top_k)

end FAQRetriever

/-! ## src/agents/state.py — agent state and history management -/

/-- `AgentState` (src/agents/state.py lines 17-52).  `Optional` typed-dict
entries become `Option` fields; `intent_confidence` is a float in the
source, embedded as `Rat`. -/
structure AgentState where
  user_message : String
  conversation_history : List Message
  session_id : String
  detected_intent : Option String
  intent_confidence : Rat
  tracking_number : Option String
  faq_query : Option String
  faq_results : Option (List KnowledgeHit)
  dhl_tracking_result : Option TrackingInfo
  final_response : String
  response_time_ms : Nat
  tools_used : List String
  error : Option String
deriving Repr, DecidableEq

/-- `create_initial_state` (src/agents/state.py lines 55-85). -/
def create_initial_state (user_message session_id : String)
    (conversation_history : List Message) : AgentState :=
  { user_message := user_message
    conversation_history := conversation_history
    session_id := session_id
    detected_intent := none
    intent_confidence := 0
    tracking_number := none
    faq_query := none
    faq_results := none
    dhl_tracking_result := none
    final_response := ""
    response_time_ms := 0
    tools_used := []
    error := none }

/-- `add_message_to_history` (src/agents/state.py lines 88-118): append the
new message, then keep only the last 10 (`history[-10:]`).  `ts` stands for
`datetime.now().isoformat()`. -/
def add_message_to_history (state : AgentState) (role content ts : String) :
    AgentState :=
  let history := state.conversation_history ++
    [{ role := role, content := content, timestamp := ts }]
  let history :=
    if history.length > 10 then history.drop (history.length - 10) else history
  { state with conversation_history := history }

/-- `get_context_string` (src/agents/state.py lines 121-140): the last 5
history entries rendered as "Role: content" lines. -/
def get_context_string (state : AgentState) : String :=
  if state.conversation_history.isEmpty then ""
  else
    "Previous conversation:\n" ++
    String.join
      ((state.conversation_history.drop (state.conversation_history.length - 5)).map
        (fun m => pyCapitalize m.role ++ ": " ++ m.content ++ "\n"))

/-! ## src/agents/prompts.py — canned templates -/

/-- `GREETING_RESPONSE_TEMPLATE` (src/agents/prompts.py lines 130-137). -/
def GREETING_RESPONSE_TEMPLATE : String :=
  "Hello! 👋 Welcome to Chakancha Global!\n\nI'm here to help you with:\n• Information about our premium Kenyan teas\n• Tracking your DHL shipments\n• Questions about ordering and our products\n\nHow can I assist you today?"

/-- `ERROR_RESPONSE_TEMPLATE` (src/agents/prompts.py lines 139-146); the
trailing space after "right now." is in the source. -/
def ERROR_RESPONSE_TEMPLATE : String :=
  "I apologize, but I'm having trouble processing your request right now. \n\nPlease try:\n• Rephrasing your question\n• Checking if your tracking number is correct\n• Contacting our support team at support@chakancha.com\n\nI'm here to help! 🙏"

/-- `NO_RESULTS_FAQ_TEMPLATE` (src/agents/prompts.py lines 148-158). -/
def NO_RESULTS_FAQ_TEMPLATE : String :=
  "I don't have specific information about that in my knowledge base right now.\n\nHowever, I can help you with:\n• Our tea products and varieties\n• Pricing and ordering information\n• Shipping and delivery details\n• Our Chakan Tree referral program\n\nOr you can contact us directly at info@chakancha.com for personalized assistance.\n\nWhat would you like to know?"

/-- `TRACKING_NOT_FOUND_TEMPLATE` (src/agents/prompts.py lines 160-169). -/
def TRACKING_NOT_FOUND_TEMPLATE : String :=
  "I couldn't find tracking information for that number. 📦\n\nPlease check:\n• The tracking number is correct (should be 10-39 characters)\n• You're using the complete tracking number from your shipping email\n• The shipment may not be in the system yet (can take 24 hours)\n\nIf you continue having issues, please contact our support team at support@chakancha.com\n\nCan I help you with anything else?"

/-! ## src/agents/nodes.py — workflow nodes

Each node is embedded with the outcome of its external call as an explicit
oracle argument; `Except.error` stands for a raised exception that the
node's own `except` block catches. -/

/-- The JSON object the intent classifier is asked to produce
(src/agents/prompts.py lines 52-58); each field may be absent (the node
reads them with `result.get`). -/
structure IntentJson where
  intent : Option String := none
  confidence : Option Rat := none
  tracking_number : Option String := none
  faq_query : Option String := none
deriving Repr, DecidableEq

/-- Input the response-generation completion call depends on: the pieces
`RESPONSE_GENERATION_PROMPT.format(...)` interpolates (src/agents/nodes.py
lines 233-238). -/
structure SynthInput where
  user_message : String
  intent : Option String
  tool_results : String
  context : String
deriving Repr, DecidableEq

/-- Oracle bundle for one turn of the workflow:
  * `classifier` — outcome of the Claude intent call plus the ordered JSON
    parse fallback of src/agents/nodes.py lines 55-81 (`.error` when the
    call raised or no strategy parsed);
  * `retrieveFn` — outcome of `faq_retriever.retrieve(query, 3, 0.7)`;
  * `trackFn` — `dhl_client.track_shipment` (total: it catches its own
    failures and returns a record);
  * `synth` — outcome of the Claude response call including
    `response.content[0].text.strip()`;
  * `fmtPercent` — Python's `:.0%` float formatting;
  * `fmtTracking` — `dhl_client.format_tracking_response` on a successful
    tracking record (its timestamp rendering is locale/format work with no
    bearing on the claims). -/
structure Oracles where
  classifier : Except String IntentJson
  retrieveFn : String → Except String (List KnowledgeHit)
  trackFn : String → TrackingInfo
  synth : SynthInput → Except String String
  fmtPercent : Rat → String
  fmtTracking : TrackingInfo → String

/-- `intent_analysis_node` (src/agents/nodes.py lines 32-104): on a parsed
result, fields are read with `result.get` defaults (`intent` → "unknown",
`confidence` → 0.0); on any raised failure the `except` block records the
error and forces `unknown` with confidence 0. -/
def intent_analysis_node (classifier : Except String IntentJson)
    (state : AgentState) : AgentState :=
  match classifier with
  | .ok r =>
    { state with
      detected_intent := some (r.intent.getD "unknown")
      intent_confidence := r.confidence.getD 0
      tracking_number := r.tracking_number
      faq_query := r.faq_query }
  | .error e =>
    { state with
      error := some ("Intent analysis failed: " ++ e)
      detected_intent := some "unknown"
      intent_confidence := 0 }

/-- `faq_retrieval_node` (src/agents/nodes.py lines 107-147): skip unless
the intent is `faq`; retrieve over `faq_query or user_message`; store the
results and append "faq_retriever" to `tools_used`; a raised failure is
caught and recorded as "FAQ retrieval failed: ...". -/
def faq_retrieval_node (retrieveFn : String → Except String (List KnowledgeHit))
    (state : AgentState) : AgentState :=
  if state.detected_intent ≠ some "faq" then state
  else
    match retrieveFn (pyOrStr state.faq_query state.user_message) with
    | .ok results =>
      { state with
        faq_results := some results
        tools_used := state.tools_used ++ ["faq_retriever"] }
    | .error e => { state with error := some ("FAQ retrieval failed: " ++ e) }

/-- `dhl_tracking_node` (src/agents/nodes.py lines 150-198): skip unless
the intent is `dhl_tracking`; with no (or falsy) tracking number, set the
error and a failure record and return WITHOUT touching `tools_used`;
otherwise store the tracking result and append "dhl_tracker". -/
def dhl_tracking_node (trackFn : String → TrackingInfo)
    (state : AgentState) : AgentState :=
  if state.detected_intent ≠ some "dhl_tracking" then state
  else if !pyTruthyStr state.tracking_number then
    { state with
      error := some "No tracking number found"
      dhl_tracking_result := some
        { success := false, error := some "No tracking number provided" } }
  else
    let result := trackFn (state.tracking_number.getD "")
    { state with
      dhl_tracking_result := some result
      tools_used := state.tools_used ++ ["dhl_tracker"] }

/-- `_format_tool_results` (src/agents/nodes.py lines 290-335).  The FAQ
block is emitted only when `state['faq_results']` is truthy (a non-empty
list); the `len == 0` branch of the source is kept although that guard
makes it unreachable.  A failed tracking record renders its own error
text; when neither block was produced, the generic "no tool results"
sentence is returned. -/
def format_tool_results (fmtPercent : Rat → String)
    (fmtTracking : TrackingInfo → String) (state : AgentState) : String :=
  let faqPart : String :=
    match state.faq_results with
    | some faqs =>
      if faqs.isEmpty then ""
      else
        "=== FAQ KNOWLEDGE BASE RESULTS ===\n\n" ++
        (if faqs.length = 0 then "No relevant FAQs found.\n"
         else String.join ((faqs.enum).map (fun p =>
           "FAQ " ++ toString (p.1 + 1) ++ " (Relevance: " ++ fmtPercent p.2.score ++
           "):\nQuestion: " ++ p.2.question ++ "\nAnswer: " ++ p.2.answer ++
           "\nCategory: " ++ p.2.category ++ "\n\n")))
    | none => ""
  let dhlPart : String :=
    match state.dhl_tracking_result with
    | some td =>
      "=== DHL TRACKING RESULTS ===\n\n" ++
      (if td.success then fmtTracking td ++ "\n"
       else
         "❌ Tracking Error: " ++ td.error.getD "Unknown error" ++
         "\nTracking number may be invalid or not found in system.\n")
    | none => ""
  let tool_results := faqPart ++ dhlPart
  if tool_results.isEmpty then
    "No tool results available. Respond based on general knowledge about Chakancha Global."
  else tool_results

/-- `response_generation_node` (src/agents/nodes.py lines 201-261):
greeting template first, then the error template when `error` is truthy,
otherwise the completion call over the formatted tool results and context;
a raised completion failure is caught, recorded, and answered with the
error template. -/
def response_generation_node (o : Oracles) (state : AgentState) : AgentState :=
  if state.detected_intent = some "greeting" then
    { state with final_response := GREETING_RESPONSE_TEMPLATE }
  else if pyTruthyStr state.error then
    { state with final_response := ERROR_RESPONSE_TEMPLATE }
  else
    let tool_results := format_tool_results o.fmtPercent o.fmtTracking state
    let context := get_context_string state
    match o.synth
      { user_message := state.user_message
        intent := state.detected_intent
        tool_results := tool_results
        context := context } with
    | .ok text => { state with final_response := text }
    | .error e =>
      { state with
        error := some ("Response generation failed: " ++ e)
        final_response := ERROR_RESPONSE_TEMPLATE }

/-- `error_handler_node` (src/agents/nodes.py lines 264-287): template
selection by case-insensitive substring of the recorded error text. -/
def error_handler_node (state : AgentState) : AgentState :=
  if pyTruthyStr state.error then
    let e := pyLower (state.error.getD "")
    if strContains e "tracking" then
      { state with final_response := TRACKING_NOT_FOUND_TEMPLATE }
    else if strContains e "faq" || strContains e "retrieval" then
      { state with final_response := NO_RESULTS_FAQ_TEMPLATE }
    else { state with final_response := ERROR_RESPONSE_TEMPLATE }
  else state

/-! ## src/agents/chatbot_agent.py — routing, graph and orchestrator -/

/-- `route_after_intent` (src/agents/chatbot_agent.py lines 21-53). -/
def route_after_intent (state : AgentState) : String :=
  if pyTruthyStr state.error then "error_handler"
  else if state.detected_intent = some "faq" then "faq_retrieval"
  else if state.detected_intent = some "dhl_tracking" then "dhl_tracking"
  else if state.detected_intent = some "greeting" ∨
          state.detected_intent = some "general_chat" ∨
          state.detected_intent = some "unknown" then "response_generation"
  else "response_generation"

/-- `route_after_tools` (src/agents/chatbot_agent.py lines 56-71).  NOTE:
this router is defined in the source but never wired into the graph — the
graph uses plain `add_edge` from both tool nodes (lines 106-107). -/
def route_after_tools (state : AgentState) : String :=
  if pyTruthyStr state.error then "error_handler" else "response_generation"

/-- The nodes of the compiled StateGraph (src/agents/chatbot_agent.py
lines 84-88), plus the END sentinel. -/
inductive Node where
  | intent_analysis
  | faq_retrieval
  | dhl_tracking
  | response_generation
  | error_handler
  | END
deriving Repr, DecidableEq

/-- The conditional-edge name map of src/agents/chatbot_agent.py
lines 97-102. -/
def nodeOfName (name : String) : Option Node :=
  if name = "faq_retrieval" then some .faq_retrieval
  else if name = "dhl_tracking" then some .dhl_tracking
  else if name = "response_generation" then some .response_generation
  else if name = "error_handler" then some .error_handler
  else none

/-- The edge relation of the compiled graph (src/agents/chatbot_agent.py
lines 91-111): a conditional edge after `intent_analysis` via
`route_after_intent` on the node's output state, PLAIN edges from both tool
nodes to `response_generation` (`workflow.add_edge`, lines 106-107), and
terminal edges to END. -/
def graphNext (node : Node) (state : AgentState) : Option Node :=
  match node with
  | .intent_analysis => nodeOfName (route_after_intent state)
  | .faq_retrieval => some .response_generation
  | .dhl_tracking => some .response_generation
  | .response_generation => some .END
  | .error_handler => some .END
  | .END => none

/-- Run one node's body (the functions registered with `add_node`,
src/agents/chatbot_agent.py lines 84-88). -/
def execNode (o : Oracles) (node : Node) (state : AgentState) : AgentState :=
  match node with
  | .intent_analysis => intent_analysis_node o.classifier state
  | .faq_retrieval => faq_retrieval_node o.retrieveFn state
  | .dhl_tracking => dhl_tracking_node o.trackFn state
  | .response_generation => response_generation_node o state
  | .error_handler => error_handler_node state
  | .END => state

/-- Fuelled execution of the compiled graph from a node: run the node, then
follow `graphNext` evaluated on the node's output state.  Fuel 4 suffices
for every path of this graph (length at most 3 before END). -/
def runFrom (o : Oracles) : Nat → Node → AgentState → AgentState
  | 0, _, state => state
  | fuel + 1, node, state =>
    if node = Node.END then state
    else
      let state' := execNode o node state
      match graphNext node state' with
      | some next => runFrom o fuel next state'
      | none => state'

/-- `app.invoke` (src/agents/chatbot_agent.py line 168): the compiled graph
run from its entry point `intent_analysis`. -/
def appInvoke (o : Oracles) (state : AgentState) : AgentState :=
  runFrom o 4 .intent_analysis state

/-- The result dict of `process_message` (src/agents/chatbot_agent.py
lines 185-199 and 206-214). -/
structure TurnResult where
  reply : String
  session_id : String
  response_time_ms : Nat
  intent : Option String
  tools_used : List String
  conversation_history : List Message
  error : Option String
deriving Repr, DecidableEq

/-- The fixed apology of the top-level exception handler
(src/agents/chatbot_agent.py line 207). -/
def APOLOGY_REPLY : String :=
  "I apologize, but I'm experiencing technical difficulties right now. Please try again in a moment, or contact our support team at support@chakancha.com for immediate assistance."

/-- `process_message` (src/agents/chatbot_agent.py lines 123-214).
`invokeOutcome` is the outcome of everything inside the `try` up to and
including `app.invoke` — `.error e` stands for any uncaught exception with
message `e`, handled by the top-level `except` (lines 201-214).  On
success the user message and the produced reply are appended to the
history, and `error` is included only when truthy (line 195).  `elapsedMs`
stands for the measured wall time, `tsUser`/`tsReply` for the two
`datetime.now().isoformat()` stamps. -/
def process_message (user_message session_id : String)
    (conversation_history : List Message)
    (invokeOutcome : Except String AgentState)
    (elapsedMs : Nat) (tsUser tsReply : String) : TurnResult :=
  match invokeOutcome with
  | .ok finalState =>
    let fs1 := add_message_to_history finalState "user" user_message tsUser
    let fs2 := add_message_to_history fs1 "assistant" fs1.final_response tsReply
    { reply := fs2.final_response
      session_id := session_id
      response_time_ms := elapsedMs
      intent := fs2.detected_intent
      tools_used := fs2.tools_used
      conversation_history := fs2.conversation_history
      error := if pyTruthyStr fs2.error then fs2.error else none }
  | .error e =>
    { reply := APOLOGY_REPLY
      session_id := session_id
      response_time_ms := elapsedMs
      intent := some "unknown"
      tools_used := []
      conversation_history := conversation_history
      error := some e }

/-! ## Concrete instances used by the claim theorems -/

/-- A benign oracle bundle used to instantiate universally quantified
theorems at concrete inputs: the classifier parses to an empty object,
retrieval finds nothing, tracking succeeds generically, synthesis answers
a fixed text. -/
def stubOracles : Oracles :=
  { classifier := .ok {}
    retrieveFn := fun _ => .ok []
    trackFn := fun _ => { success := true }
    synth := fun _ => .ok "reply text"
    fmtPercent := fun _ => ""
    fmtTracking := fun _ => "" }

/-- Oracle bundle for a turn whose classifier answers `dhl_tracking` with
no extractable tracking number: the DHL node then records the error
"No tracking number found". -/
def c2Oracles : Oracles :=
  { classifier := .ok { intent := some "dhl_tracking", confidence := some (9/10) }
    retrieveFn := fun _ => .ok []
    trackFn := fun _ => { success := true }
    synth := fun _ => .ok "synthesized"
    fmtPercent := fun _ => ""
    fmtTracking := fun _ => "" }

/-- The state after `intent_analysis` and `dhl_tracking` have run on that
turn: its error field is set. -/
def c2ToolState : AgentState :=
  execNode c2Oracles .dhl_tracking
    (execNode c2Oracles .intent_analysis
      (create_initial_state "Track my shipment" "sess-1" []))

/-- The closed five-value intent vocabulary of the spec. -/
def intentValues : List String :=
  ["faq", "dhl_tracking", "greeting", "general_chat", "unknown"]

/-- Oracle bundle whose classifier parses successfully but reports the
out-of-vocabulary intent "banana". -/
def bananaOracles : Oracles :=
  { stubOracles with
    classifier := .ok { intent := some "banana", confidence := some 1 } }

/-- Oracle bundle for the C7 scenario: classifier extracts "ab" as the
tracking identifier of a `dhl_tracking` turn, the tracking client is in
mock mode, synthesis answers a fixed text. -/
def c7Oracles : Oracles :=
  { stubOracles with
    classifier := .ok
      { intent := some "dhl_tracking", confidence := some 1,
        tracking_number := some "ab" }
    trackFn := DHLTrackingClient.track_shipment true
      (fun tn => { success := true, tracking_number := some tn })
      "2026-03-01T00:00:00"
    synth := fun _ => .ok "synthesized tracking answer" }

/-- A `dhl_tracking` turn state holding the extracted identifier
"TEST123". -/
def c8State : AgentState :=
  { create_initial_state "Track TEST123" "sess" [] with
    detected_intent := some "dhl_tracking"
    tracking_number := some "TEST123" }

/-- Oracle bundle for a `faq` turn whose retrieval finds no hit at or
above the score threshold. -/
def c9Oracles : Oracles :=
  { stubOracles with
    classifier := .ok
      { intent := some "faq", confidence := some 1,
        faq_query := some "what teas do you sell" } }

/-- The state after `intent_analysis` and `faq_retrieval` have run on that
turn: zero hits were stored. -/
def c9State : AgentState :=
  execNode c9Oracles .faq_retrieval
    (execNode c9Oracles .intent_analysis
      (create_initial_state "What teas do you sell?" "sess" []))

/-- Oracle bundle whose classifier answers `greeting` with full
confidence. -/
def greetOracles : Oracles :=
  { stubOracles with
    classifier := .ok { intent := some "greeting", confidence := some 1 } }

/-! ## Shared lemmas -/

/-- The intent node never touches the conversation history. -/
theorem intent_analysis_node_conv (c : Except String IntentJson) (s : AgentState) :
    (intent_analysis_node c s).conversation_history = s.conversation_history := by
  cases c <;> rfl

/-- The FAQ node never touches the conversation history. -/
theorem faq_retrieval_node_conv (f : String → Except String (List KnowledgeHit))
    (s : AgentState) :
    (faq_retrieval_node f s).conversation_history = s.conversation_history := by
  unfold faq_retrieval_node
  split
  · rfl
  · split <;> rfl

/-- The DHL node never touches the conversation history. -/
theorem dhl_tracking_node_conv (f : String → TrackingInfo) (s : AgentState) :
    (dhl_tracking_node f s).conversation_history = s.conversation_history := by
  unfold dhl_tracking_node
  split
  · rfl
  · split <;> rfl

/-- The response node never touches the conversation history. -/
theorem response_generation_node_conv (o : Oracles) (s : AgentState) :
    (response_generation_node o s).conversation_history = s.conversation_history := by
  unfold response_generation_node
  split
  · rfl
  · split
    · rfl
    · dsimp only
      split <;> rfl

/-- The error handler never touches the conversation history. -/
theorem error_handler_node_conv (s : AgentState) :
    (error_handler_node s).conversation_history = s.conversation_history := by
  unfold error_handler_node
  split
  · dsimp only
    split
    · rfl
    · split <;> rfl
  · rfl

/-- No node of the graph touches the conversation history. -/
theorem execNode_conv (o : Oracles) (n : Node) (s : AgentState) :
    (execNode o n s).conversation_history = s.conversation_history := by
  cases n <;>
    simp only [execNode, intent_analysis_node_conv, faq_retrieval_node_conv,
      dhl_tracking_node_conv, response_generation_node_conv,
      error_handler_node_conv]

/-- Graph execution never touches the conversation history. -/
theorem runFrom_conv (o : Oracles) (fuel : Nat) (n : Node) (s : AgentState) :
    (runFrom o fuel n s).conversation_history = s.conversation_history := by
  induction fuel generalizing n s with
  | zero => rfl
  | succ k ih =>
    show (if n = Node.END then s
      else
        match graphNext n (execNode o n s) with
        | some next => runFrom o k next (execNode o n s)
        | none => execNode o n s).conversation_history = s.conversation_history
    split
    · rfl
    · cases graphNext n (execNode o n s) with
      | none => exact execNode_conv o n s
      | some next => rw [ih next (execNode o n s), execNode_conv]

/-- The compiled workflow returns the input history unchanged: only
`process_message` itself appends to it afterwards. -/
theorem appInvoke_conv (o : Oracles) (s : AgentState) :
    (appInvoke o s).conversation_history = s.conversation_history :=
  runFrom_conv o 4 .intent_analysis s

/-- One step of the fuelled runner at fuel 4. -/
theorem runFrom_step4 (o : Oracles) (n : Node) (s : AgentState)
    (hn : n ≠ Node.END) :
    runFrom o 4 n s =
      match graphNext n (execNode o n s) with
      | some next => runFrom o 3 next (execNode o n s)
      | none => execNode o n s := by
  show (if n = Node.END then s
    else
      let state' := execNode o n s
      match graphNext n state' with
      | some next => runFrom o 3 next state'
      | none => state') = _
  rw [if_neg hn]

/-- One step of the fuelled runner at fuel 3. -/
theorem runFrom_step3 (o : Oracles) (n : Node) (s : AgentState)
    (hn : n ≠ Node.END) :
    runFrom o 3 n s =
      match graphNext n (execNode o n s) with
      | some next => runFrom o 2 next (execNode o n s)
      | none => execNode o n s := by
  show (if n = Node.END then s
    else
      let state' := execNode o n s
      match graphNext n state' with
      | some next => runFrom o 2 next state'
      | none => state') = _
  rw [if_neg hn]

/-- One step of the fuelled runner at fuel 2. -/
theorem runFrom_step2 (o : Oracles) (n : Node) (s : AgentState)
    (hn : n ≠ Node.END) :
    runFrom o 2 n s =
      match graphNext n (execNode o n s) with
      | some next => runFrom o 1 next (execNode o n s)
      | none => execNode o n s := by
  show (if n = Node.END then s
    else
      let state' := execNode o n s
      match graphNext n state' with
      | some next => runFrom o 1 next state'
      | none => state') = _
  rw [if_neg hn]

/-- The graph run in closed form: `intent_analysis` first, then the node
the conditional edge selects, with both tool nodes wired straight into
`response_generation` and both terminal nodes into END. -/
theorem appInvoke_eq (o : Oracles) (s0 : AgentState) :
    appInvoke o s0 =
      match nodeOfName (route_after_intent (intent_analysis_node o.classifier s0)) with
      | some Node.faq_retrieval =>
          response_generation_node o
            (faq_retrieval_node o.retrieveFn (intent_analysis_node o.classifier s0))
      | some Node.dhl_tracking =>
          response_generation_node o
            (dhl_tracking_node o.trackFn (intent_analysis_node o.classifier s0))
      | some Node.response_generation =>
          response_generation_node o (intent_analysis_node o.classifier s0)
      | some Node.error_handler =>
          error_handler_node (intent_analysis_node o.classifier s0)
      | some Node.intent_analysis =>
          runFrom o 3 Node.intent_analysis (intent_analysis_node o.classifier s0)
      | some Node.END => intent_analysis_node o.classifier s0
      | none => intent_analysis_node o.classifier s0 := by
  unfold appInvoke
  rw [runFrom_step4 o Node.intent_analysis s0 (by decide)]
  cases hn : nodeOfName (route_after_intent (intent_analysis_node o.classifier s0)) with
  | none =>
    show (match graphNext Node.intent_analysis (intent_analysis_node o.classifier s0) with
      | some next => runFrom o 3 next (intent_analysis_node o.classifier s0)
      | none => intent_analysis_node o.classifier s0) = _
    show (match nodeOfName (route_after_intent (intent_analysis_node o.classifier s0)) with
      | some next => runFrom o 3 next (intent_analysis_node o.classifier s0)
      | none => intent_analysis_node o.classifier s0) = _
    rw [hn]
  | some n2 =>
    show (match nodeOfName (route_after_intent (intent_analysis_node o.classifier s0)) with
      | some next => runFrom o 3 next (intent_analysis_node o.classifier s0)
      | none => intent_analysis_node o.classifier s0) = _
    rw [hn]
    cases n2 with
    | intent_analysis => rfl
    | END => rfl
    | faq_retrieval =>
      dsimp only
      rw [runFrom_step3 o Node.faq_retrieval _ (by decide)]
      show (match graphNext Node.faq_retrieval
          (faq_retrieval_node o.retrieveFn (intent_analysis_node o.classifier s0)) with
        | some next => runFrom o 2 next
            (faq_retrieval_node o.retrieveFn (intent_analysis_node o.classifier s0))
        | none => faq_retrieval_node o.retrieveFn (intent_analysis_node o.classifier s0)) = _
      rw [show graphNext Node.faq_retrieval
        (faq_retrieval_node o.retrieveFn (intent_analysis_node o.classifier s0))
        = some Node.response_generation from rfl]
      dsimp only
      rw [runFrom_step2 o Node.response_generation _ (by decide)]
      rfl
    | dhl_tracking =>
      dsimp only
      rw [runFrom_step3 o Node.dhl_tracking _ (by decide)]
      show (match graphNext Node.dhl_tracking
          (dhl_tracking_node o.trackFn (intent_analysis_node o.classifier s0)) with
        | some next => runFrom o 2 next
            (dhl_tracking_node o.trackFn (intent_analysis_node o.classifier s0))
        | none => dhl_tracking_node o.trackFn (intent_analysis_node o.classifier s0)) = _
      rw [show graphNext Node.dhl_tracking
        (dhl_tracking_node o.trackFn (intent_analysis_node o.classifier s0))
        = some Node.response_generation from rfl]
      dsimp only
      rw [runFrom_step2 o Node.response_generation _ (by decide)]
      rfl
    | response_generation =>
      dsimp only
      rw [runFrom_step3 o Node.response_generation _ (by decide)]
      rfl
    | error_handler =>
      dsimp only
      rw [runFrom_step3 o Node.error_handler _ (by decide)]
      rfl

/-! ## Claims -/

/-- C1. `process_message` never propagates a failure: whenever anything
inside the `try` block raises (modelled by `invokeOutcome = .error e`),
the caller receives the fixed apology reply, intent "unknown", no tools,
and the failure's message in the error field — never an exception
(`process_message` is a total function of its inputs). -/
theorem c1_top_level_catch (user_message session_id : String)
    (hist : List Message) (e : String) (t : Nat) (ts1 ts2 : String) :
    (process_message user_message session_id hist (.error e) t ts1 ts2).reply
      = APOLOGY_REPLY ∧
    (process_message user_message session_id hist (.error e) t ts1 ts2).intent
      = some "unknown" ∧
    (process_message user_message session_id hist (.error e) t ts1 ts2).tools_used
      = [] ∧
    (process_message user_message session_id hist (.error e) t ts1 ts2).error
      = some e :=
  ⟨rfl, rfl, rfl, rfl⟩

/-- C2. The claimed routing does not exist in the code: after a tool node
leaves `error` set, the compiled graph still goes to `response_generation`
(plain `add_edge`, src/agents/chatbot_agent.py lines 106-107); the
`route_after_tools` router that would have returned "error_handler" is
defined but never wired in.  Observable divergence: the turn ends with the
generic `ERROR_RESPONSE_TEMPLATE` from the response node, while the error
handler's text-matching would have selected `TRACKING_NOT_FOUND_TEMPLATE`
for this error. -/
theorem c2_tool_error_routing_gap :
    pyTruthyStr c2ToolState.error = true ∧
    graphNext .dhl_tracking c2ToolState = some .response_generation ∧
    route_after_tools c2ToolState = "error_handler" ∧
    (appInvoke c2Oracles
      (create_initial_state "Track my shipment" "sess-1" [])).final_response
      = ERROR_RESPONSE_TEMPLATE ∧
    (error_handler_node c2ToolState).final_response
      = TRACKING_NOT_FOUND_TEMPLATE :=
  ⟨rfl, rfl, rfl, rfl, rfl⟩

/-- One capped append (the body of `add_message_to_history`) in closed
form: append, then drop down to the last 10. -/
theorem add_message_conv (s : AgentState) (r c t : String) :
    (add_message_to_history s r c t).conversation_history
      = (s.conversation_history ++ ([{ role := r, content := c, timestamp := t }] : List Message)).drop
          (s.conversation_history.length + 1 - 10) := by
  unfold add_message_to_history
  dsimp only
  rcases Nat.lt_or_ge (s.conversation_history.length + 1) 11 with hlt | hge
  · rw [if_neg (by simp only [List.length_append, List.length_cons,
      List.length_nil]; omega)]
    have e0 : s.conversation_history.length + 1 - 10 = 0 := by omega
    rw [e0, List.drop_zero]
  · rw [if_pos (by simp only [List.length_append, List.length_cons,
      List.length_nil]; omega)]
    have e1 : (s.conversation_history ++
        ([{ role := r, content := c, timestamp := t }] : List Message)).length - 10
        = s.conversation_history.length + 1 - 10 := by
      simp only [List.length_append, List.length_cons, List.length_nil]
    rw [e1]

/-- `add_message_to_history` changes only the history. -/
theorem add_message_final_response (s : AgentState) (r c t : String) :
    (add_message_to_history s r c t).final_response = s.final_response := rfl

/-- Two capped appends on a history of at most 10 entries: the two new
messages survive at the end and the oldest entries are dropped. -/
theorem drop_window (l : List Message) (u a : Message) (h : l.length ≤ 10) :
    (((l ++ [u]).drop (l.length + 1 - 10) ++ [a]).drop
        (((l ++ [u]).drop (l.length + 1 - 10)).length + 1 - 10))
      = (l ++ [u, a]).drop (l.length + 2 - 10) := by
  rcases Nat.lt_or_ge l.length 9 with h8 | h9
  · have e1 : l.length + 1 - 10 = 0 := by omega
    rw [e1, List.drop_zero]
    have e2 : (l ++ [u]).length + 1 - 10 = 0 := by
      simp only [List.length_append, List.length_cons, List.length_nil]
      omega
    rw [e2, List.drop_zero]
    have e3 : l.length + 2 - 10 = 0 := by omega
    rw [e3, List.drop_zero, List.append_assoc]
    rfl
  · rcases Nat.lt_or_ge l.length 10 with h9' | h10
    · have hl9 : l.length = 9 := by omega
      have e1 : l.length + 1 - 10 = 0 := by omega
      rw [e1, List.drop_zero]
      have e2 : (l ++ [u]).length + 1 - 10 = 1 := by
        simp only [List.length_append, List.length_cons, List.length_nil]
        omega
      rw [e2]
      have e3 : l.length + 2 - 10 = 1 := by omega
      rw [e3, List.append_assoc]
      rfl
    · have hl10 : l.length = 10 := by omega
      have e1 : l.length + 1 - 10 = 1 := by omega
      have hinner : (l ++ [u]).drop 1 = l.drop 1 ++ [u] :=
        List.drop_append_of_le_length (by omega)
      rw [e1, hinner]
      have e2 : (l.drop 1 ++ [u]).length + 1 - 10 = 1 := by
        simp only [List.length_append, List.length_cons, List.length_nil,
          List.length_drop]
        omega
      rw [e2]
      have e3 : l.length + 2 - 10 = 2 := by omega
      have houter : (l.drop 1 ++ [u, a]).drop 1 = (l.drop 1).drop 1 ++ [u, a] :=
        List.drop_append_of_le_length (by simp only [List.length_drop]; omega)
      have hrhs : (l ++ [u, a]).drop 2 = l.drop 2 ++ [u, a] :=
        List.drop_append_of_le_length (by omega)
      rw [e3, List.append_assoc, show [u] ++ [a] = ([u, a] : List Message) from rfl,
        houter, List.drop_drop, hrhs]

/-- C3 fails on the top-level failure path: when the pipeline raises, the
returned history is the input history unchanged, not `min(priorLength+2,10)`
long — here prior length 0 yields 0 messages, not 2 (lines 206-214 of
src/agents/chatbot_agent.py return the input history in the apology
result). -/
theorem c3_counterexample :
    ¬ ((process_message "hello" "sess" [] (.error "boom") 5 "t1" "t2").conversation_history.length
        = min (([] : List Message).length + 2) 10) := by
  decide

/-- C3 (amended to turns where the workflow completes without the
top-level catch).  The returned history is the input history plus the user
message and the produced reply, FIFO-capped at 10, hence of length
`min(priorLength + 2, 10)`. -/
theorem c3_history_window (o : Oracles) (msg sid : String) (hist : List Message)
    (hlen : hist.length <= 10) (t : Nat) (ts1 ts2 : String) :
    (process_message msg sid hist
        (.ok (appInvoke o (create_initial_state msg sid hist))) t ts1 ts2).conversation_history
      = (hist ++
          ([{ role := "user", content := msg, timestamp := ts1 },
            { role := "assistant",
              content := (process_message msg sid hist
                (.ok (appInvoke o (create_initial_state msg sid hist))) t ts1 ts2).reply,
              timestamp := ts2 }] : List Message)).drop (hist.length + 2 - 10) ∧
    (process_message msg sid hist
        (.ok (appInvoke o (create_initial_state msg sid hist))) t ts1 ts2).conversation_history.length
      = min (hist.length + 2) 10 := by
  have hconv : (appInvoke o (create_initial_state msg sid hist)).conversation_history = hist := by
    rw [appInvoke_conv]
    rfl
  have hmain :
      (process_message msg sid hist
        (.ok (appInvoke o (create_initial_state msg sid hist))) t ts1 ts2).conversation_history
      = (hist ++
          ([{ role := "user", content := msg, timestamp := ts1 },
            { role := "assistant",
              content := (appInvoke o (create_initial_state msg sid hist)).final_response,
              timestamp := ts2 }] : List Message)).drop (hist.length + 2 - 10) := by
    show (add_message_to_history
        (add_message_to_history (appInvoke o (create_initial_state msg sid hist)) "user" msg ts1)
        "assistant"
        (add_message_to_history (appInvoke o (create_initial_state msg sid hist)) "user" msg ts1).final_response
        ts2).conversation_history = _
    rw [add_message_final_response, add_message_conv, add_message_conv, hconv]
    exact drop_window hist _ _ hlen
  have hreply :
      (process_message msg sid hist
        (.ok (appInvoke o (create_initial_state msg sid hist))) t ts1 ts2).reply
      = (appInvoke o (create_initial_state msg sid hist)).final_response := rfl
  refine ⟨by rw [hmain, hreply], ?_⟩
  rw [hmain]
  simp only [List.length_drop, List.length_append, List.length_cons,
    List.length_nil]
  omega

/-- Concrete instance of the amended C3 at an empty prior history. -/
theorem c3_witness :
    (process_message "hello" "sess" []
        (.ok (appInvoke stubOracles (create_initial_state "hello" "sess" []))) 1 "t1" "t2").conversation_history.length
      = min (([] : List Message).length + 2) 10 :=
  (c3_history_window stubOracles "hello" "sess" [] (by decide) 1 "t1" "t2").2

/-- C4. `FAQRetriever.retrieve` asks the index for `top_k * 2` neighbours
under the category filter and post-processes exactly that answer: the
result is the score-filtered, order-preserving truncation of the index's
matches, so every hit scores at least `min_score`, a descending index
answer stays descending (no secondary tie-break), and at most `top_k`
hits come back; a raised or empty embedding yields `[]` rather than an
error. -/
theorem c4_retrieve_contract (env : FAQRetriever.RetrieveEnv) (query : String)
    (top_k : Nat) (min_score : Rat) (ns : String) (category : Option String) :
    (∀ e, env.embedOutcome query = .error e →
      FAQRetriever.retrieve env query top_k min_score ns category = [])
    ∧ (env.embedOutcome query = .ok none →
      FAQRetriever.retrieve env query top_k min_score ns category = [])
    ∧ (∀ vec ms, env.embedOutcome query = .ok (some vec) →
        env.queryFn vec (top_k * 2) ns (FAQRetriever.category_filter category) = .ok ms →
        FAQRetriever.retrieve env query top_k min_score ns category =
          ((ms.filter (fun m => min_score ≤ m.score)).map
            (fun m => FAQRetriever.metadataToFaq m.score m.metadata)).take top_k
        ∧ (∀ hit ∈ FAQRetriever.retrieve env query top_k min_score ns category,
            min_score ≤ hit.score)
        ∧ (ms.Pairwise (fun a b => b.score ≤ a.score) →
            (FAQRetriever.retrieve env query top_k min_score ns category).Pairwise
              (fun a b => b.score ≤ a.score))
        ∧ (FAQRetriever.retrieve env query top_k min_score ns category).length ≤ top_k) := by
  refine ⟨?_, ?_, ?_⟩
  · intro e he
    unfold FAQRetriever.retrieve
    rw [he]
  · intro he
    unfold FAQRetriever.retrieve
    rw [he]
  · intro vec ms hv hq
    have hr : FAQRetriever.retrieve env query top_k min_score ns category =
        ((ms.filter (fun m => min_score ≤ m.score)).map
          (fun m => FAQRetriever.metadataToFaq m.score m.metadata)).take top_k := by
      unfold FAQRetriever.retrieve
      rw [hv]
      dsimp only
      rw [hq]
    refine ⟨hr, ?_, ?_, ?_⟩
    · intro hit hmem
      rw [hr] at hmem
      obtain ⟨m, hmf, hme⟩ := List.mem_map.mp (List.mem_of_mem_take hmem)
      have hscore := of_decide_eq_true (List.mem_filter.mp hmf).2
      rw [← hme]
      exact hscore
    · intro hs
      rw [hr]
      exact ((List.pairwise_map).mpr (hs.filter _)).sublist
        (List.take_sublist _ _)
    · rw [hr, List.length_take]
      exact min_le_left _ _

/-- C5 fails as stated: an intent value outside the closed set is NOT
coerced to "unknown" — `state['detected_intent'] = result.get('intent',
'unknown')` (src/agents/nodes.py line 84) keeps whatever string the
classifier produced, and it reaches the caller unchanged. -/
theorem c5_counterexample :
    (process_message "hi" "sess" []
        (.ok (appInvoke bananaOracles (create_initial_state "hi" "sess" []))) 1 "t1" "t2").intent
      = some "banana"
    ∧ ¬ ("banana" ∈ intentValues) :=
  ⟨rfl, by decide⟩

/-- C5 (amended).  The recorded intent is the classifier's string verbatim
with "unknown" only as the missing-field default, so the closed-set
invariant holds exactly when the parsed value is absent or already in the
set; an unparseable classifier response does yield "unknown" with
confidence 0 and the error field set. -/
theorem c5_intent_closure (outcome : Except String IntentJson) (s : AgentState) :
    (∀ e, outcome = .error e →
      (intent_analysis_node outcome s).detected_intent = some "unknown"
      ∧ (intent_analysis_node outcome s).intent_confidence = 0
      ∧ (intent_analysis_node outcome s).error
          = some ("Intent analysis failed: " ++ e))
    ∧ (∀ r, outcome = .ok r →
        (intent_analysis_node outcome s).detected_intent
          = some (r.intent.getD "unknown"))
    ∧ (∀ r v, outcome = .ok r →
        (r.intent = none ∨ (r.intent = some v ∧ v ∈ intentValues)) →
        ∃ w ∈ intentValues,
          (intent_analysis_node outcome s).detected_intent = some w) := by
  refine ⟨?_, ?_, ?_⟩
  · intro e he
    subst he
    exact ⟨rfl, rfl, rfl⟩
  · intro r hr
    subst hr
    rfl
  · intro r v hr hcase
    subst hr
    rcases hcase with hnone | ⟨hsome, hmem⟩
    · refine ⟨"unknown", by decide, ?_⟩
      show some (r.intent.getD "unknown") = some "unknown"
      rw [hnone]
      rfl
    · refine ⟨v, hmem, ?_⟩
      show some (r.intent.getD "unknown") = some v
      rw [hsome]
      rfl

/-- C6.  A tracking identifier that is empty, or whose stripped length is
below 8 or above 39, is rejected by the validation guard of
`track_shipment`: the result is the fixed invalid-format failure record,
independent of the mock/real mode and of the live-provider oracle (so no
network call and no mock scenario contributes to it). -/
theorem c6_validation_guard (mock : Bool) (real : String → TrackingInfo)
    (now tn : String)
    (h : tn.isEmpty = true ∨ (pyStrip tn).length < 8 ∨ (pyStrip tn).length > 39) :
    DHLTrackingClient.track_shipment mock real now tn =
      { success := false
        error := some "Invalid tracking number format"
        tracking_number := some tn } := by
  have hv : DHLTrackingClient.validate_tracking_number tn = false := by
    unfold DHLTrackingClient.validate_tracking_number
    rcases h with h | h | h
    · rw [if_pos h]
    · by_cases he : tn.isEmpty = true
      · rw [if_pos he]
      · rw [if_neg he]
        dsimp only
        rw [if_pos (by simp only [Bool.or_eq_true, decide_eq_true_eq]; omega)]
    · by_cases he : tn.isEmpty = true
      · rw [if_pos he]
      · rw [if_neg he]
        dsimp only
        rw [if_pos (by simp only [Bool.or_eq_true, decide_eq_true_eq]; omega)]
  unfold DHLTrackingClient.track_shipment
  simp only [hv, Bool.not_false, if_true]

/-- Concrete instance of C6 at the two-character identifier "ab". -/
theorem c6_witness :
    DHLTrackingClient.track_shipment true (fun _ => { success := true }) "NOW" "ab"
      = { success := false
          error := some "Invalid tracking number format"
          tracking_number := some "ab" } :=
  c6_validation_guard true (fun _ => { success := true }) "NOW" "ab"
    (Or.inr (Or.inl (by decide)))

/-- C7 fails as stated: for the two-character identifier "ab" the
validation failure is stored in the tracking RESULT, the turn's `error`
field stays unset, and the final response is the normal synthesized
reply — not the tracking-not-found template (src/agents/nodes.py
lines 179-189 record the failed result without setting `state['error']`). -/
theorem c7_counterexample :
    (appInvoke c7Oracles (create_initial_state "Track my shipment ab" "sess" [])).error = none
    ∧ (appInvoke c7Oracles (create_initial_state "Track my shipment ab" "sess" [])).final_response
        ≠ TRACKING_NOT_FOUND_TEMPLATE :=
  ⟨rfl, by decide⟩

/-- C7 (amended).  A `dhl_tracking` turn whose extracted identifier is
"ab" gets a failed tracking record (`success = false`, invalid-format
error), leaves the turn's `error` field unset, appends "dhl_tracker", and
is answered by normal synthesis over a tool-result block that reports the
tracking error — the error-handler template selection never runs. -/
theorem c7_invalid_id_flow (o : Oracles) (r : IntentJson) (mock : Bool)
    (real : String → TrackingInfo) (now msg sid : String)
    (hist : List Message) (t : String)
    (hcl : o.classifier = .ok r)
    (hint : r.intent = some "dhl_tracking")
    (htn : r.tracking_number = some "ab")
    (htrack : o.trackFn = DHLTrackingClient.track_shipment mock real now)
    (hsynth : ∀ inp, o.synth inp = .ok t) :
    (appInvoke o (create_initial_state msg sid hist)).error = none
    ∧ (appInvoke o (create_initial_state msg sid hist)).dhl_tracking_result
        = some { success := false, error := some "Invalid tracking number format",
                 tracking_number := some "ab" }
    ∧ (appInvoke o (create_initial_state msg sid hist)).tools_used = ["dhl_tracker"]
    ∧ (appInvoke o (create_initial_state msg sid hist)).final_response = t
    ∧ format_tool_results o.fmtPercent o.fmtTracking
        (dhl_tracking_node o.trackFn
          (intent_analysis_node o.classifier (create_initial_state msg sid hist)))
        = "=== DHL TRACKING RESULTS ===\n\n❌ Tracking Error: Invalid tracking number format\nTracking number may be invalid or not found in system.\n" := by
  have h1i : (intent_analysis_node o.classifier (create_initial_state msg sid hist)).detected_intent
      = some "dhl_tracking" := by
    rw [hcl]
    show some (r.intent.getD "unknown") = _
    rw [hint]
    rfl
  have h1tn : (intent_analysis_node o.classifier (create_initial_state msg sid hist)).tracking_number
      = some "ab" := by
    rw [hcl]
    exact htn
  have h1e : (intent_analysis_node o.classifier (create_initial_state msg sid hist)).error
      = none := by
    rw [hcl]
    rfl
  have h1t : (intent_analysis_node o.classifier (create_initial_state msg sid hist)).tools_used
      = [] := by
    rw [hcl]
    rfl
  have h1f : (intent_analysis_node o.classifier (create_initial_state msg sid hist)).faq_results
      = none := by
    rw [hcl]
    rfl
  have harg : o.trackFn
      ((intent_analysis_node o.classifier (create_initial_state msg sid hist)).tracking_number.getD "")
      = { success := false, error := some "Invalid tracking number format",
          tracking_number := some "ab" } := by
    rw [h1tn, htrack]
    have hv : DHLTrackingClient.validate_tracking_number "ab" = false := by decide
    show DHLTrackingClient.track_shipment mock real now "ab" = _
    unfold DHLTrackingClient.track_shipment
    simp only [hv, Bool.not_false, if_true]
  have hne1 : ¬ ((intent_analysis_node o.classifier (create_initial_state msg sid hist)).detected_intent
      ≠ some "dhl_tracking") := by
    intro hne
    exact hne h1i
  have hne2 : ¬ ((!pyTruthyStr (intent_analysis_node o.classifier
      (create_initial_state msg sid hist)).tracking_number) = true) := by
    rw [h1tn]
    decide
  have hs2 : dhl_tracking_node o.trackFn
      (intent_analysis_node o.classifier (create_initial_state msg sid hist))
      = { intent_analysis_node o.classifier (create_initial_state msg sid hist) with
          dhl_tracking_result := some
            { success := false, error := some "Invalid tracking number format",
              tracking_number := some "ab" }
          tools_used := (intent_analysis_node o.classifier
            (create_initial_state msg sid hist)).tools_used ++ ["dhl_tracker"] } := by
    unfold dhl_tracking_node
    rw [if_neg hne1, if_neg hne2]
    dsimp only
    rw [harg]
  have hs2i : (dhl_tracking_node o.trackFn
      (intent_analysis_node o.classifier (create_initial_state msg sid hist))).detected_intent
      = some "dhl_tracking" := by
    rw [hs2]
    exact h1i
  have hs2e : (dhl_tracking_node o.trackFn
      (intent_analysis_node o.classifier (create_initial_state msg sid hist))).error
      = none := by
    rw [hs2]
    exact h1e
  have hne3 : ¬ ((dhl_tracking_node o.trackFn
      (intent_analysis_node o.classifier (create_initial_state msg sid hist))).detected_intent
      = some "greeting") := by
    rw [hs2i]
    decide
  have hne4 : ¬ (pyTruthyStr (dhl_tracking_node o.trackFn
      (intent_analysis_node o.classifier (create_initial_state msg sid hist))).error = true) := by
    rw [hs2e]
    decide
  have hroute : route_after_intent
      (intent_analysis_node o.classifier (create_initial_state msg sid hist))
      = "dhl_tracking" := by
    unfold route_after_intent
    rw [h1e, h1i]
    rfl
  have happ : appInvoke o (create_initial_state msg sid hist)
      = response_generation_node o
          (dhl_tracking_node o.trackFn
            (intent_analysis_node o.classifier (create_initial_state msg sid hist))) := by
    rw [appInvoke_eq, hroute]
    rfl
  have hs3 : response_generation_node o
      (dhl_tracking_node o.trackFn
        (intent_analysis_node o.classifier (create_initial_state msg sid hist)))
      = { dhl_tracking_node o.trackFn
            (intent_analysis_node o.classifier (create_initial_state msg sid hist)) with
          final_response := t } := by
    unfold response_generation_node
    rw [if_neg hne3, if_neg hne4]
    dsimp only
    rw [hsynth]
  have hfmt : format_tool_results o.fmtPercent o.fmtTracking
      (dhl_tracking_node o.trackFn
        (intent_analysis_node o.classifier (create_initial_state msg sid hist)))
      = "=== DHL TRACKING RESULTS ===\n\n❌ Tracking Error: Invalid tracking number format\nTracking number may be invalid or not found in system.\n" := by
    unfold format_tool_results
    rw [hs2]
    dsimp only
    rw [h1f]
    rfl
  refine ⟨?_, ?_, ?_, ?_, hfmt⟩
  · rw [happ, hs3]
    show (dhl_tracking_node o.trackFn
      (intent_analysis_node o.classifier (create_initial_state msg sid hist))).error = none
    exact hs2e
  · rw [happ, hs3]
    show (dhl_tracking_node o.trackFn
      (intent_analysis_node o.classifier (create_initial_state msg sid hist))).dhl_tracking_result = _
    rw [hs2]
  · rw [happ, hs3]
    show (dhl_tracking_node o.trackFn
      (intent_analysis_node o.classifier (create_initial_state msg sid hist))).tools_used = _
    rw [hs2]
    dsimp only
    rw [h1t]
    rfl
  · rw [happ, hs3]

/-- Concrete instance of the amended C7 at the scenario oracles. -/
theorem c7_witness :
    (appInvoke c7Oracles (create_initial_state "Track my shipment ab" "sess" [])).error
      = none :=
  (c7_invalid_id_flow c7Oracles
    { intent := some "dhl_tracking", confidence := some 1,
      tracking_number := some "ab" }
    true (fun tn => { success := true, tracking_number := some tn })
    "2026-03-01T00:00:00" "Track my shipment ab" "sess" []
    "synthesized tracking answer" rfl rfl rfl rfl (fun _ => rfl)).1


/-- C8 fails as stated: on a `dhl_tracking` turn where no tracking number
was extracted, the node records the error and returns WITHOUT appending
the tool identifier (src/agents/nodes.py lines 167-174 return before the
`tools_used.append` at line 182) — here the whole turn ends with an empty
`toolsUsed`. -/
theorem c8_counterexample :
    (appInvoke c2Oracles (create_initial_state "Track my shipment" "sess-1" [])).tools_used = []
    ∧ (appInvoke c2Oracles (create_initial_state "Track my shipment" "sess-1" [])).error
        = some "No tracking number found" :=
  ⟨rfl, rfl⟩

/-- C8 (amended).  On a `dhl_tracking` turn, "dhl_tracker" is appended to
`toolsUsed` exactly when `track_shipment` is actually invoked (a truthy
tracking number was extracted) — then success or failure of the lookup
makes no difference — while the no-tracking-number path sets the error and
leaves `toolsUsed` unchanged. -/
theorem c8_tool_append (f : String → TrackingInfo) (s : AgentState)
    (hint : s.detected_intent = some "dhl_tracking") :
    ((s.tracking_number = none ∨ s.tracking_number = some "") →
      (dhl_tracking_node f s).tools_used = s.tools_used
      ∧ (dhl_tracking_node f s).error = some "No tracking number found")
    ∧ (∀ tn, s.tracking_number = some tn → tn ≠ "" →
        (dhl_tracking_node f s).tools_used = s.tools_used ++ ["dhl_tracker"]
        ∧ (dhl_tracking_node f s).dhl_tracking_result = some (f tn)) := by
  have hne1 : ¬ (s.detected_intent ≠ some "dhl_tracking") := fun hne => hne hint
  constructor
  · intro hcase
    have hcond : (!pyTruthyStr s.tracking_number) = true := by
      rcases hcase with h | h <;> rw [h] <;> rfl
    unfold dhl_tracking_node
    rw [if_neg hne1, if_pos hcond]
    exact ⟨rfl, rfl⟩
  · intro tn htn hne
    have hb : tn.isEmpty = false := by
      cases hbt : tn.isEmpty with
      | false => rfl
      | true => exact absurd ((String.isEmpty_iff tn).mp hbt) hne
    have hcond : ¬ ((!pyTruthyStr s.tracking_number) = true) := by
      rw [htn]
      show ¬ ((!(!tn.isEmpty)) = true)
      rw [hb]
      decide
    unfold dhl_tracking_node
    rw [if_neg hne1, if_neg hcond]
    dsimp only
    rw [htn]
    exact ⟨rfl, rfl⟩

/-- Concrete instance of the amended C8: with a tracking number present the
tool identifier is appended. -/
theorem c8_witness :
    (dhl_tracking_node stubOracles.trackFn c8State).tools_used
      = c8State.tools_used ++ ["dhl_tracker"] :=
  ((c8_tool_append stubOracles.trackFn c8State rfl).2 "TEST123" rfl (by decide)).1

/-- C9: zero-hit retrieval leaves `retrievalResults = []`, no error, and
the turn proceeds to normal synthesis — but the promised "no relevant
entries" marker is NOT in the prompt block: the `len == 0` branch of
`_format_tool_results` (src/agents/nodes.py lines 306-307) is unreachable
because the enclosing `if state['faq_results']` is falsy for an empty
list, so the generic "No tool results available" sentence is used
instead. -/
theorem c9_empty_hits_marker_gap :
    c9State.faq_results = some []
    ∧ c9State.error = none
    ∧ graphNext .faq_retrieval c9State = some .response_generation
    ∧ format_tool_results c9Oracles.fmtPercent c9Oracles.fmtTracking c9State
        = "No tool results available. Respond based on general knowledge about Chakancha Global."
    ∧ strContains
        (format_tool_results c9Oracles.fmtPercent c9Oracles.fmtTracking c9State)
        "No relevant FAQs found" = false :=
  ⟨rfl, rfl, rfl, rfl, rfl⟩

/-- C10.  On a turn classified as `greeting` the reply is exactly the
fixed greeting template; the whole workflow result is independent of the
completion oracle (no synthesis call is observable); and inside the
response node the greeting branch takes priority over every other
behaviour, error handling included. -/
theorem c10_greeting_template (o : Oracles) (r : IntentJson) (msg sid : String)
    (hist : List Message) (t : Nat) (ts1 ts2 : String)
    (hcl : o.classifier = .ok r) (hint : r.intent = some "greeting") :
    (process_message msg sid hist
        (.ok (appInvoke o (create_initial_state msg sid hist))) t ts1 ts2).reply
      = GREETING_RESPONSE_TEMPLATE
    ∧ (∀ synth2, appInvoke { o with synth := synth2 } (create_initial_state msg sid hist)
        = appInvoke o (create_initial_state msg sid hist))
    ∧ (∀ (o2 : Oracles) (s : AgentState), s.detected_intent = some "greeting" →
        response_generation_node o2 s
          = { s with final_response := GREETING_RESPONSE_TEMPLATE }) := by
  have hnode : ∀ (o2 : Oracles) (s : AgentState), s.detected_intent = some "greeting" →
      response_generation_node o2 s
        = { s with final_response := GREETING_RESPONSE_TEMPLATE } := by
    intro o2 s hs
    unfold response_generation_node
    rw [if_pos hs]
  have key : ∀ (oo : Oracles), oo.classifier = .ok r →
      appInvoke oo (create_initial_state msg sid hist)
      = { intent_analysis_node (Except.ok r) (create_initial_state msg sid hist) with
          final_response := GREETING_RESPONSE_TEMPLATE } := by
    intro oo hocl
    have h1i : (intent_analysis_node oo.classifier (create_initial_state msg sid hist)).detected_intent
        = some "greeting" := by
      rw [hocl]
      show some (r.intent.getD "unknown") = _
      rw [hint]
      rfl
    have h1e : (intent_analysis_node oo.classifier (create_initial_state msg sid hist)).error
        = none := by
      rw [hocl]
      rfl
    have hroute : route_after_intent
        (intent_analysis_node oo.classifier (create_initial_state msg sid hist))
        = "response_generation" := by
      unfold route_after_intent
      rw [h1e, h1i]
      rfl
    have happ : appInvoke oo (create_initial_state msg sid hist)
        = response_generation_node oo
            (intent_analysis_node oo.classifier (create_initial_state msg sid hist)) := by
      rw [appInvoke_eq, hroute]
      rfl
    rw [happ, hnode oo _ h1i, hocl]
  refine ⟨?_, ?_, hnode⟩
  · have hreply : (process_message msg sid hist
        (.ok (appInvoke o (create_initial_state msg sid hist))) t ts1 ts2).reply
        = (appInvoke o (create_initial_state msg sid hist)).final_response := rfl
    rw [hreply, key o hcl]
  · intro synth2
    rw [key { o with synth := synth2 } hcl, key o hcl]

/-- Concrete instance of C10 at the "Hi there!" scenario. -/
theorem c10_witness :
    (process_message "Hi there!" "sess" []
        (.ok (appInvoke greetOracles (create_initial_state "Hi there!" "sess" []))) 1 "t1" "t2").reply
      = GREETING_RESPONSE_TEMPLATE :=
  (c10_greeting_template greetOracles
    { intent := some "greeting", confidence := some 1 }
    "Hi there!" "sess" [] 1 "t1" "t2" rfl rfl).1


end Chakancha
